import Mathlib

/-!
# Verification of the document-ingestion pipeline of the AI chatbot backend

Shallow embedding of `src/server.js`: the `/upload` route (format detection by
filename extension, DOCX/PDF text extraction, OCR fallback for textless PDFs,
non-emptiness validation, insert into the knowledge store) and the `/add`
route (manual knowledge). External collaborators (mammoth, pdf-parse,
tesseract.js, the supabase table) are modelled as abstract functions: an
awaited call either resolves to a string or rejects with an error message.
The pipeline is instrumented with call counts so that "OCR is never invoked"
style properties are expressible.
-/

namespace AIChat

/-- A byte buffer from an HTTP upload; bytes as natural numbers. -/
abbrev Buffer := List Nat

/-- Outcome of an awaited external call in JS: resolved value, or rejected
with the error's message (caught by the route's try/catch). -/
abbrev JsResult (α : Type) := Except String α

/-! ## JavaScript String.prototype.trim, on character lists -/

/-- Drop leading whitespace characters. -/
def dropWs (l : List Char) : List Char := l.dropWhile Char.isWhitespace

/-- Strip leading and trailing whitespace from a character list,
as JS `String.prototype.trim` does. -/
def trimChars (l : List Char) : List Char :=
  ((dropWs l).reverse.dropWhile Char.isWhitespace).reverse

/-- JS `s.trim()` on Lean strings, via the underlying character list. -/
def jsTrim (s : String) : String := (trimChars s.toList).asString

/-! ## Format detection: `path.extname(req.file.originalname).toLowerCase()`
(src/server.js line 73) -/

/-- The last portion of a POSIX path: the characters after the last `/`
(Node `path.basename`, no suffix argument). -/
def baseChars (l : List Char) : List Char :=
  (l.reverse.takeWhile (fun c => c ≠ '/')).reverse

/-- Node `path.extname` on the character list of the basename: the substring
from the last `.` to the end, except that a `.` as the very first character
of the basename does not start an extension. -/
def extnameOfBase (b : List Char) : List Char :=
  match b.reverse.findIdx? (· = '.') with
  | none => []
  | some r =>
    if b.length - 1 - r = 0 then []
    else b.drop (b.length - 1 - r)

/-- Node `path.extname`. -/
def extname (p : String) : String := (extnameOfBase (baseChars p.toList)).asString

/-- JS `String.prototype.toLowerCase` applied to the extension:
`path.extname(name).toLowerCase()` of src/server.js line 73. -/
def lowerExt (p : String) : String := ((extname p).toList.map Char.toLower).asString

/-- The document kinds the route dispatches on (src/server.js lines 76-92). -/
inductive DocumentKind
  | PDF
  | DOCX
  | Unsupported
deriving DecidableEq, Repr

/-- Format detection: a pure function of the declared filename only.
Embeds the dispatch `ext === ".docx" / ext === ".pdf" / else` on
`path.extname(originalname).toLowerCase()` (src/server.js lines 73, 76, 80, 91). -/
def detect (declaredName : String) : DocumentKind :=
  if lowerExt declaredName = ".docx" then .DOCX
  else if lowerExt declaredName = ".pdf" then .PDF
  else .Unsupported

/-! ## The extraction pipeline of the `/upload` route -/

/-- The external extraction collaborators of src/server.js: mammoth
(`extractRawText({buffer}).value`), pdf-parse (`pdfParse(buffer).text`) and
tesseract.js (`Tesseract.recognize(buffer, lang).data.text`). Each awaited
call resolves to a string or rejects. -/
structure Collaborators where
  mammothExtract : Buffer → JsResult String
  pdfParseText : Buffer → JsResult String
  tesseractRecognize : Buffer → String → JsResult String

/-- The typed failures of one ingestion call: the spec's taxonomy, read off
the control flow of src/server.js lines 67-106. A throw from mammoth or
pdf-parse reaches the catch as `malformedDocument`; a throw from tesseract
reaches it as `recognitionFailure`; the other three are the explicit
early-return 400 responses. -/
inductive Failure
  | unsupportedFormat
  | malformedDocument (msg : String)
  | emptyDocument
  | noRecoverableText
  | recognitionFailure (msg : String)
deriving DecidableEq, Repr

/-- How the validated text was obtained. -/
inductive Method
  | directText
  | ocr
deriving DecidableEq, Repr

/-- The validated artifact of a successful extraction. -/
structure ExtractionResult where
  text : String
  method : Method
deriving DecidableEq, Repr

instance {ε α : Type} [DecidableEq ε] [DecidableEq α] : DecidableEq (Except ε α) := fun x y =>
  match x, y with
  | .error a, .error b =>
    if h : a = b then isTrue (by rw [h]) else isFalse (by intro hh; cases hh; exact h rfl)
  | .error _, .ok _ => isFalse (by intro hh; cases hh)
  | .ok _, .error _ => isFalse (by intro hh; cases hh)
  | .ok a, .ok b =>
    if h : a = b then isTrue (by rw [h]) else isFalse (by intro hh; cases hh; exact h rfl)

/-- One run of the extraction phase: its result plus how many times each
external extractor was invoked. -/
structure RunTrace where
  result : Except Failure ExtractionResult
  mammothCalls : Nat
  pdfParseCalls : Nat
  ocrCalls : Nat
deriving DecidableEq, Repr

/-- The uploaded file as multer's memory storage hands it to the route. -/
structure UploadedFile where
  originalname : String
  buffer : Buffer
deriving DecidableEq, Repr

/-- The DOCX branch, src/server.js lines 76-79: await mammoth, trim; empty
means `emptyDocument`; a rejection reaches the catch as `malformedDocument`. -/
def docxStep (C : Collaborators) (buf : Buffer) : RunTrace :=
  match C.mammothExtract buf with
  | .error msg => ⟨.error (.malformedDocument msg), 1, 0, 0⟩
  | .ok v =>
    if jsTrim v = "" then ⟨.error .emptyDocument, 1, 0, 0⟩
    else ⟨.ok ⟨jsTrim v, .directText⟩, 1, 0, 0⟩

/-- The OCR fallback of the PDF branch, src/server.js lines 84-90: await
`Tesseract.recognize(buffer, "eng")`, trim; still empty means
`noRecoverableText`; an engine rejection reaches the catch as
`recognitionFailure`. Counts include the pdf-parse call that preceded it. -/
def ocrFallback (C : Collaborators) (buf : Buffer) : RunTrace :=
  match C.tesseractRecognize buf "eng" with
  | .error msg => ⟨.error (.recognitionFailure msg), 0, 1, 1⟩
  | .ok w =>
    if jsTrim w = "" then ⟨.error .noRecoverableText, 0, 1, 1⟩
    else ⟨.ok ⟨jsTrim w, .ocr⟩, 0, 1, 1⟩

/-- The PDF branch, src/server.js lines 80-90: await pdf-parse, trim; empty
triggers the OCR fallback; a rejection reaches the catch as
`malformedDocument`. -/
def pdfStep (C : Collaborators) (buf : Buffer) : RunTrace :=
  match C.pdfParseText buf with
  | .error msg => ⟨.error (.malformedDocument msg), 0, 1, 0⟩
  | .ok v =>
    if jsTrim v = "" then ocrFallback C buf
    else ⟨.ok ⟨jsTrim v, .directText⟩, 0, 1, 0⟩

/-- The extraction phase of the `/upload` handler, src/server.js lines 73-93:
dispatch on the lower-cased extension of the declared name; other extensions
fail `unsupportedFormat` with no extractor invoked. -/
def uploadPipeline (C : Collaborators) (file : UploadedFile) : RunTrace :=
  match detect file.originalname with
  | .DOCX => docxStep C file.buffer
  | .PDF => pdfStep C file.buffer
  | .Unsupported => ⟨.error .unsupportedFormat, 0, 0, 0⟩

/-! ## The HTTP surface of the routes -/

/-- An HTTP response: status code plus the message of the JSON body
(the `error` field for failures, the success message otherwise). -/
structure HttpResponse where
  status : Nat
  body : String
deriving DecidableEq, Repr

/-- JS `err.message || fallback` used in both catch blocks. -/
def errMessageOr (msg fallback : String) : String :=
  if msg = "" then fallback else msg

/-- The caller-visible response of each failure kind, read off
src/server.js lines 79, 90, 92 and the catch block at lines 102-105. -/
def failureResponse : Failure → HttpResponse
  | .unsupportedFormat => ⟨400, "Unsupported file type"⟩
  | .malformedDocument msg => ⟨500, errMessageOr msg "File processing failed"⟩
  | .emptyDocument => ⟨400, "DOCX contains no readable text"⟩
  | .noRecoverableText => ⟨400, "PDF contains no readable text even after OCR"⟩
  | .recognitionFailure msg => ⟨500, errMessageOr msg "File processing failed"⟩

/-- The unit persisted to the `knowledge_base` table. -/
structure KnowledgeRecord where
  content : String
  source : String
deriving DecidableEq, Repr

/-- The supabase insert collaborator: `none` means the insert succeeded,
`some msg` means it returned an error (which the route throws). -/
structure StoreBehavior where
  insertOutcome : Option String

/-- The whole `/upload` handler outcome: the response, the knowledge store
after the call, and the extractor call counts of the run. -/
structure UploadOutcome where
  response : HttpResponse
  store : List KnowledgeRecord
  mammothCalls : Nat
  pdfParseCalls : Nat
  ocrCalls : Nat
deriving DecidableEq, Repr

/-- The `/upload` handler on a received file, src/server.js lines 73-105:
run the extraction phase; on success insert
`{content: extractedText, source: originalname}` into the store (a store
error is thrown into the catch); answer 200 on success. -/
def handleUploadFile (C : Collaborators) (S : StoreBehavior) (file : UploadedFile)
    (store : List KnowledgeRecord) : UploadOutcome :=
  match (uploadPipeline C file).result with
  | .error f =>
    ⟨failureResponse f, store, (uploadPipeline C file).mammothCalls,
      (uploadPipeline C file).pdfParseCalls, (uploadPipeline C file).ocrCalls⟩
  | .ok r =>
    match S.insertOutcome with
    | some msg =>
      ⟨⟨500, errMessageOr msg "File processing failed"⟩, store,
        (uploadPipeline C file).mammothCalls,
        (uploadPipeline C file).pdfParseCalls, (uploadPipeline C file).ocrCalls⟩
    | none =>
      ⟨⟨200, "File uploaded and indexed successfully"⟩,
        store ++ [⟨r.text, file.originalname⟩],
        (uploadPipeline C file).mammothCalls,
        (uploadPipeline C file).pdfParseCalls, (uploadPipeline C file).ocrCalls⟩

/-- The `/upload` handler, src/server.js lines 67-106: reject when no file
arrived (`!req.file`), otherwise process it. -/
def handleUpload (C : Collaborators) (S : StoreBehavior) (reqFile : Option UploadedFile)
    (store : List KnowledgeRecord) : UploadOutcome :=
  match reqFile with
  | none => ⟨⟨400, "No file received or empty file"⟩, store, 0, 0, 0⟩
  | some file => handleUploadFile C S file store

/-- The multer file-size limit configured at src/server.js lines 37-40. -/
def uploadFileSizeLimit : Nat := 20 * 1024 * 1024

/-- The `/upload` route's behavior on a received file including the multer
middleware. The middleware's own code is not part of this repository; per
multer's documented `limits` behavior, a file larger than `fileSize` aborts
the request with a `LIMIT_FILE_SIZE` error before the route handler runs,
so no extractor is invoked and nothing is persisted. -/
def uploadRouteFile (C : Collaborators) (S : StoreBehavior) (file : UploadedFile)
    (store : List KnowledgeRecord) : UploadOutcome :=
  if uploadFileSizeLimit < file.buffer.length then
    ⟨⟨500, "File too large"⟩, store, 0, 0, 0⟩
  else handleUploadFile C S file store

/-- The `/upload` route including the multer middleware. -/
def uploadRoute (C : Collaborators) (S : StoreBehavior) (reqFile : Option UploadedFile)
    (store : List KnowledgeRecord) : UploadOutcome :=
  match reqFile with
  | some file => uploadRouteFile C S file store
  | none => handleUpload C S none store

/-- The `/add` handler outcome. -/
structure AddOutcome where
  response : HttpResponse
  store : List KnowledgeRecord
deriving DecidableEq, Repr

/-- The `/add` handler, src/server.js lines 50-62: reject 400 when
`!content || !source` (field absent or empty string); otherwise insert the
two fields verbatim; a store error is thrown into the catch (500). -/
def handleAdd (S : StoreBehavior) (content source : Option String)
    (store : List KnowledgeRecord) : AddOutcome :=
  match content, source with
  | some c, some s =>
    if c = "" || s = "" then ⟨⟨400, "Missing content or source"⟩, store⟩
    else
      match S.insertOutcome with
      | some msg => ⟨⟨500, errMessageOr msg "Failed to add knowledge"⟩, store⟩
      | none => ⟨⟨200, "success"⟩, store ++ [⟨c, s⟩]⟩
  | _, _ => ⟨⟨400, "Missing content or source"⟩, store⟩

/-- Trim the resolved value of an external call; errors are kept as is.
Used to state that the pipeline observes extractor output only up to
leading/trailing whitespace. -/
def trimOk : JsResult String → JsResult String
  | .error msg => .error msg
  | .ok v => .ok (jsTrim v)

/-! ## Helper lemmas -/

theorem dropWhile_idem {α : Type} (p : α → Bool) (l : List α) :
    (l.dropWhile p).dropWhile p = l.dropWhile p := by
  induction l with
  | nil => rfl
  | cons a t ih =>
    cases hpa : p a with
    | true => simp [List.dropWhile_cons, hpa, ih]
    | false => simp [List.dropWhile_cons, hpa]

theorem dropWhile_head_false {α : Type} (p : α → Bool) :
    ∀ (l : List α) (x : α) (m : List α), l.dropWhile p = x :: m → p x = false := by
  intro l
  induction l with
  | nil => intro x m h; cases h
  | cons a t ih =>
    intro x m h
    cases hpa : p a with
    | true =>
      rw [List.dropWhile_cons_of_pos hpa] at h
      exact ih x m h
    | false =>
      rw [List.dropWhile_cons_of_neg (by simp [hpa])] at h
      injection h with h1 h2
      rw [← h1]
      exact hpa

theorem trimChars_idem (l : List Char) : trimChars (trimChars l) = trimChars l := by
  have hdm : (trimChars l).dropWhile Char.isWhitespace = trimChars l := by
    cases hm : trimChars l with
    | nil => rfl
    | cons x m =>
      have hsplit := List.takeWhile_append_dropWhile (p := Char.isWhitespace)
        (l := (dropWs l).reverse)
      have hr := congrArg List.reverse hsplit
      rw [List.reverse_append, List.reverse_reverse] at hr
      have ha : trimChars l ++ ((dropWs l).reverse.takeWhile Char.isWhitespace).reverse
          = dropWs l := hr
      rw [hm] at ha
      have hfa : l.dropWhile Char.isWhitespace
          = x :: (m ++ ((dropWs l).reverse.takeWhile Char.isWhitespace).reverse) := ha.symm
      have hx := dropWhile_head_false Char.isWhitespace l x _ hfa
      exact List.dropWhile_cons_of_neg (by simp [hx])
  have h3 : (trimChars l).reverse = (dropWs l).reverse.dropWhile Char.isWhitespace := by
    unfold trimChars
    exact List.reverse_reverse _
  calc trimChars (trimChars l)
      = (((trimChars l).dropWhile Char.isWhitespace).reverse.dropWhile
          Char.isWhitespace).reverse := rfl
    _ = ((trimChars l).reverse.dropWhile Char.isWhitespace).reverse := by rw [hdm]
    _ = (((dropWs l).reverse.dropWhile Char.isWhitespace).dropWhile
          Char.isWhitespace).reverse := by rw [h3]
    _ = ((dropWs l).reverse.dropWhile Char.isWhitespace).reverse := by
          rw [dropWhile_idem]
    _ = trimChars l := rfl

theorem toList_asString (l : List Char) : (l.asString).toList = l := rfl

theorem jsTrim_idem (s : String) : jsTrim (jsTrim s) = jsTrim s := by
  unfold jsTrim
  rw [toList_asString, trimChars_idem]

theorem detect_eq_of_ext_eq (a b : String)
    (h : lowerExt a = lowerExt b) : detect a = detect b := by
  unfold detect
  rw [h]

theorem detect_unsupported (a : String) (h1 : lowerExt a ≠ ".docx")
    (h2 : lowerExt a ≠ ".pdf") : detect a = .Unsupported := by
  unfold detect
  rw [if_neg h1, if_neg h2]

theorem uploadPipeline_docx (C : Collaborators) (file : UploadedFile)
    (hd : detect file.originalname = .DOCX) :
    uploadPipeline C file = docxStep C file.buffer := by
  unfold uploadPipeline
  rw [hd]

theorem uploadPipeline_pdf (C : Collaborators) (file : UploadedFile)
    (hd : detect file.originalname = .PDF) :
    uploadPipeline C file = pdfStep C file.buffer := by
  unfold uploadPipeline
  rw [hd]

theorem uploadPipeline_unsupported (C : Collaborators) (file : UploadedFile)
    (hd : detect file.originalname = .Unsupported) :
    uploadPipeline C file = ⟨.error .unsupportedFormat, 0, 0, 0⟩ := by
  unfold uploadPipeline
  rw [hd]

theorem docxStep_error (C : Collaborators) (buf : Buffer) (msg : String)
    (h : C.mammothExtract buf = .error msg) :
    docxStep C buf = ⟨.error (.malformedDocument msg), 1, 0, 0⟩ := by
  unfold docxStep
  rw [h]

theorem docxStep_ok (C : Collaborators) (buf : Buffer) (v : String)
    (h : C.mammothExtract buf = .ok v) :
    docxStep C buf =
      if jsTrim v = "" then ⟨.error .emptyDocument, 1, 0, 0⟩
      else ⟨.ok ⟨jsTrim v, .directText⟩, 1, 0, 0⟩ := by
  unfold docxStep
  rw [h]

theorem pdfStep_error (C : Collaborators) (buf : Buffer) (msg : String)
    (h : C.pdfParseText buf = .error msg) :
    pdfStep C buf = ⟨.error (.malformedDocument msg), 0, 1, 0⟩ := by
  unfold pdfStep
  rw [h]

theorem pdfStep_ok (C : Collaborators) (buf : Buffer) (v : String)
    (h : C.pdfParseText buf = .ok v) :
    pdfStep C buf =
      if jsTrim v = "" then ocrFallback C buf
      else ⟨.ok ⟨jsTrim v, .directText⟩, 0, 1, 0⟩ := by
  unfold pdfStep
  rw [h]

theorem ocrFallback_error (C : Collaborators) (buf : Buffer) (msg : String)
    (h : C.tesseractRecognize buf "eng" = .error msg) :
    ocrFallback C buf = ⟨.error (.recognitionFailure msg), 0, 1, 1⟩ := by
  unfold ocrFallback
  rw [h]

theorem ocrFallback_ok (C : Collaborators) (buf : Buffer) (w : String)
    (h : C.tesseractRecognize buf "eng" = .ok w) :
    ocrFallback C buf =
      if jsTrim w = "" then ⟨.error .noRecoverableText, 0, 1, 1⟩
      else ⟨.ok ⟨jsTrim w, .ocr⟩, 0, 1, 1⟩ := by
  unfold ocrFallback
  rw [h]

theorem handleUpload_some (C : Collaborators) (S : StoreBehavior) (file : UploadedFile)
    (store : List KnowledgeRecord) :
    handleUpload C S (some file) store = handleUploadFile C S file store := rfl

theorem handleUploadFile_error (C : Collaborators) (S : StoreBehavior)
    (file : UploadedFile) (store : List KnowledgeRecord) (f : Failure)
    (h : (uploadPipeline C file).result = .error f) :
    handleUploadFile C S file store =
      ⟨failureResponse f, store, (uploadPipeline C file).mammothCalls,
        (uploadPipeline C file).pdfParseCalls, (uploadPipeline C file).ocrCalls⟩ := by
  unfold handleUploadFile
  rw [h]

theorem handleUploadFile_insertFail (C : Collaborators) (S : StoreBehavior)
    (file : UploadedFile) (store : List KnowledgeRecord) (r : ExtractionResult)
    (msg : String) (h : (uploadPipeline C file).result = .ok r)
    (hins : S.insertOutcome = some msg) :
    handleUploadFile C S file store =
      ⟨⟨500, errMessageOr msg "File processing failed"⟩, store,
        (uploadPipeline C file).mammothCalls,
        (uploadPipeline C file).pdfParseCalls, (uploadPipeline C file).ocrCalls⟩ := by
  unfold handleUploadFile
  rw [h, hins]

theorem handleUploadFile_ok (C : Collaborators) (S : StoreBehavior)
    (file : UploadedFile) (store : List KnowledgeRecord) (r : ExtractionResult)
    (h : (uploadPipeline C file).result = .ok r) (hins : S.insertOutcome = none) :
    handleUploadFile C S file store =
      ⟨⟨200, "File uploaded and indexed successfully"⟩,
        store ++ [⟨r.text, file.originalname⟩],
        (uploadPipeline C file).mammothCalls,
        (uploadPipeline C file).pdfParseCalls, (uploadPipeline C file).ocrCalls⟩ := by
  unfold handleUploadFile
  rw [h, hins]

/-! ## Example collaborator instances used by witnesses -/

/-- Collaborators where pdf-parse finds a text layer. -/
def colDirect : Collaborators :=
  ⟨fun _ => .ok "", fun _ => .ok "  Phase diagrams show...  ", fun _ _ => .ok "x"⟩

/-- Collaborators where pdf-parse finds nothing and OCR recognizes a word. -/
def colScan : Collaborators :=
  ⟨fun _ => .ok "", fun _ => .ok " ", fun _ _ => .ok " Quenching "⟩

/-- Collaborators where pdf-parse finds nothing and OCR recognizes nothing. -/
def colBlank : Collaborators :=
  ⟨fun _ => .ok "", fun _ => .ok "", fun _ _ => .ok ""⟩

/-! ## Claims -/

/-- C1: for every uploaded PDF whose primary pdf-parse extraction yields a
string that is non-empty after trimming, the pipeline returns that trimmed
text with method DirectText, and Tesseract is never invoked on that call
(OCR call count 0). -/
theorem claim1_pdf_text_layer_skips_ocr (C : Collaborators) (file : UploadedFile)
    (v : String) (hd : detect file.originalname = .PDF)
    (hp : C.pdfParseText file.buffer = .ok v) (hv : jsTrim v ≠ "") :
    uploadPipeline C file = ⟨.ok ⟨jsTrim v, .directText⟩, 0, 1, 0⟩ := by
  rw [uploadPipeline_pdf C file hd, pdfStep_ok C file.buffer v hp, if_neg hv]

theorem claim1_witness :
    uploadPipeline colDirect ⟨"doc.pdf", [37, 80]⟩ =
      ⟨.ok ⟨jsTrim "  Phase diagrams show...  ", .directText⟩, 0, 1, 0⟩ :=
  claim1_pdf_text_layer_skips_ocr colDirect ⟨"doc.pdf", [37, 80]⟩
    "  Phase diagrams show...  " (by decide) rfl (by decide)

/-- C2: for every uploaded PDF whose primary extraction trims to empty but
whose buffer OCR recognizes, the pipeline invokes Tesseract (OCR call count 1)
and returns the trimmed recognized text with method OCR; when the recognized
text also trims to empty, the call fails with NoRecoverableText. -/
theorem claim2_pdf_ocr_fallback (C : Collaborators) (file : UploadedFile)
    (v w : String) (hd : detect file.originalname = .PDF)
    (hp : C.pdfParseText file.buffer = .ok v) (hv : jsTrim v = "")
    (ho : C.tesseractRecognize file.buffer "eng" = .ok w) :
    (jsTrim w ≠ "" → uploadPipeline C file = ⟨.ok ⟨jsTrim w, .ocr⟩, 0, 1, 1⟩) ∧
    (jsTrim w = "" → uploadPipeline C file = ⟨.error .noRecoverableText, 0, 1, 1⟩) := by
  rw [uploadPipeline_pdf C file hd, pdfStep_ok C file.buffer v hp, if_pos hv,
    ocrFallback_ok C file.buffer w ho]
  constructor
  · intro hw
    rw [if_neg hw]
  · intro hw
    rw [if_pos hw]

theorem claim2_witness :
    uploadPipeline colScan ⟨"scan.pdf", [1]⟩ =
      ⟨.ok ⟨jsTrim " Quenching ", .ocr⟩, 0, 1, 1⟩ ∧
    uploadPipeline colBlank ⟨"scan.pdf", [1]⟩ =
      ⟨.error .noRecoverableText, 0, 1, 1⟩ :=
  ⟨(claim2_pdf_ocr_fallback colScan ⟨"scan.pdf", [1]⟩ " " " Quenching "
      (by decide) rfl (by decide) rfl).1 (by decide),
   (claim2_pdf_ocr_fallback colBlank ⟨"scan.pdf", [1]⟩ "" ""
      (by decide) rfl (by decide) rfl).2 (by decide)⟩

/-- Collaborators modelling the real extractors at the zero-byte buffer:
pdf-parse is built on pdf.js, which rejects an empty buffer with
InvalidPDFException rather than resolving with empty text. -/
def colPdfjsEmpty : Collaborators :=
  ⟨fun _ => .ok "",
   fun b =>
     if b = [] then .error "The PDF file is empty, i.e. its size is zero bytes."
     else .ok "",
   fun _ _ => .ok ""⟩

/-- C5: the scenario does not hold of the running system. Whenever pdf-parse
rejects the zero-byte buffer — as its pdf.js core does with
InvalidPDFException — uploading empty.pdf makes the route take the catch
block (src/server.js lines 102-105): the run is exactly MalformedDocument
with the engine's message, OCR is never invoked, and in particular the
outcome is not the NoRecoverableText the claim requires. -/
theorem claim5_empty_pdf_malformed (C : Collaborators) (msg : String)
    (hp : C.pdfParseText [] = .error msg) :
    uploadPipeline C ⟨"empty.pdf", []⟩ = ⟨.error (.malformedDocument msg), 0, 1, 0⟩ ∧
    (uploadPipeline C ⟨"empty.pdf", []⟩).result ≠ .error .noRecoverableText := by
  have hd : detect (⟨"empty.pdf", []⟩ : UploadedFile).originalname = .PDF := by decide
  rw [uploadPipeline_pdf C ⟨"empty.pdf", []⟩ hd, pdfStep_error C _ msg hp]
  exact ⟨rfl, by simp⟩

theorem claim5_witness :
    uploadPipeline colPdfjsEmpty ⟨"empty.pdf", []⟩ =
      ⟨.error (.malformedDocument "The PDF file is empty, i.e. its size is zero bytes."),
        0, 1, 0⟩ ∧
    (uploadPipeline colPdfjsEmpty ⟨"empty.pdf", []⟩).result ≠
      .error .noRecoverableText :=
  claim5_empty_pdf_malformed colPdfjsEmpty
    "The PDF file is empty, i.e. its size is zero bytes." rfl

/-- Collaborators where mammoth yields only whitespace. -/
def colWs : Collaborators :=
  ⟨fun _ => .ok " \n ", fun _ => .ok "", fun _ _ => .ok ""⟩

/-- Collaborators where tesseract itself rejects. -/
def colOcrCrash : Collaborators :=
  ⟨fun _ => .ok "", fun _ => .ok "", fun _ _ => .error "tesseract failed"⟩

/-- A store whose insert succeeds. -/
def storeOk : StoreBehavior := ⟨none⟩

/-- C3: the OCR fallback is never applied to DOCX inputs — on a DOCX the OCR
call count is 0 and the result is never NoRecoverableText, and a DOCX whose
extraction trims to empty fails with EmptyDocument; conversely a PDF never
fails with EmptyDocument, so the two failure kinds are disjoint by document
kind. -/
theorem claim3_no_ocr_for_docx_kinds_disjoint :
    (∀ (C : Collaborators) (file : UploadedFile), detect file.originalname = .DOCX →
      (uploadPipeline C file).ocrCalls = 0 ∧
      (uploadPipeline C file).result ≠ .error .noRecoverableText) ∧
    (∀ (C : Collaborators) (file : UploadedFile) (v : String),
      detect file.originalname = .DOCX → C.mammothExtract file.buffer = .ok v →
      jsTrim v = "" → uploadPipeline C file = ⟨.error .emptyDocument, 1, 0, 0⟩) ∧
    (∀ (C : Collaborators) (file : UploadedFile), detect file.originalname = .PDF →
      (uploadPipeline C file).result ≠ .error .emptyDocument) := by
  refine ⟨?_, ?_, ?_⟩
  · intro C file hd
    rw [uploadPipeline_docx C file hd]
    cases hm : C.mammothExtract file.buffer with
    | error msg =>
      rw [docxStep_error C file.buffer msg hm]
      exact ⟨rfl, by simp⟩
    | ok v =>
      rw [docxStep_ok C file.buffer v hm]
      by_cases hv : jsTrim v = ""
      · rw [if_pos hv]
        exact ⟨rfl, by simp⟩
      · rw [if_neg hv]
        exact ⟨rfl, by simp⟩
  · intro C file v hd hm hv
    rw [uploadPipeline_docx C file hd, docxStep_ok C file.buffer v hm, if_pos hv]
  · intro C file hd
    rw [uploadPipeline_pdf C file hd]
    cases hp : C.pdfParseText file.buffer with
    | error msg =>
      rw [pdfStep_error C file.buffer msg hp]
      simp
    | ok v =>
      rw [pdfStep_ok C file.buffer v hp]
      by_cases hv : jsTrim v = ""
      · rw [if_pos hv]
        cases ho : C.tesseractRecognize file.buffer "eng" with
        | error msg =>
          rw [ocrFallback_error C file.buffer msg ho]
          simp
        | ok w =>
          rw [ocrFallback_ok C file.buffer w ho]
          by_cases hw : jsTrim w = ""
          · rw [if_pos hw]
            simp
          · rw [if_neg hw]
            simp
      · rw [if_neg hv]
        simp

theorem claim3_witness :
    uploadPipeline colWs ⟨"img.docx", [9]⟩ = ⟨.error .emptyDocument, 1, 0, 0⟩ ∧
    (uploadPipeline colWs ⟨"img.docx", [9]⟩).ocrCalls = 0 ∧
    (uploadPipeline colBlank ⟨"blank.pdf", [9]⟩).result ≠ .error .emptyDocument :=
  ⟨claim3_no_ocr_for_docx_kinds_disjoint.2.1 colWs ⟨"img.docx", [9]⟩ " \n "
      (by decide) rfl (by decide),
   (claim3_no_ocr_for_docx_kinds_disjoint.1 colWs ⟨"img.docx", [9]⟩ (by decide)).1,
   claim3_no_ocr_for_docx_kinds_disjoint.2.2 colBlank ⟨"blank.pdf", [9]⟩ (by decide)⟩

/-- C4: detection is a pure, case-insensitive function of the declared
filename's extension only: an upload whose lower-cased extension is neither
".pdf" nor ".docx" fails with the UnsupportedFormat response, with no
extractor invoked and nothing persisted, regardless of buffer content and
collaborator behavior; and two names with the same lower-cased extension
detect identically. -/
theorem claim4_unsupported_extension_rejected_first :
    (∀ (C : Collaborators) (S : StoreBehavior) (file : UploadedFile)
      (store : List KnowledgeRecord),
      lowerExt file.originalname ≠ ".pdf" → lowerExt file.originalname ≠ ".docx" →
      handleUpload C S (some file) store =
        ⟨⟨400, "Unsupported file type"⟩, store, 0, 0, 0⟩) ∧
    (∀ a b : String, lowerExt a = lowerExt b → detect a = detect b) := by
  constructor
  · intro C S file store h1 h2
    have hd : detect file.originalname = .Unsupported := detect_unsupported _ h2 h1
    rw [handleUpload_some, handleUploadFile_error C S file store .unsupportedFormat
      (by rw [uploadPipeline_unsupported C file hd]),
      uploadPipeline_unsupported C file hd]
    rfl
  · exact detect_eq_of_ext_eq

theorem claim4_witness :
    handleUpload colDirect storeOk (some ⟨"data.csv", [9, 9]⟩) [] =
      ⟨⟨400, "Unsupported file type"⟩, [], 0, 0, 0⟩ ∧
    detect "A.PDF" = detect "a.pdf" :=
  ⟨claim4_unsupported_extension_rejected_first.1 colDirect storeOk
      ⟨"data.csv", [9, 9]⟩ [] (by decide) (by decide),
   claim4_unsupported_extension_rejected_first.2 "A.PDF" "a.pdf" (by decide)⟩

/-- C6: every failing run of the pipeline carries a kind from the five-kind
taxonomy; a crash of the OCR engine itself surfaces as RecognitionFailure
with the engine's message, which is a different kind from NoRecoverableText
and maps to a different caller-visible response (500 versus 400). -/
theorem claim6_recognition_failure_distinguished :
    (∀ (C : Collaborators) (file : UploadedFile) (v msg : String),
      detect file.originalname = .PDF → C.pdfParseText file.buffer = .ok v →
      jsTrim v = "" → C.tesseractRecognize file.buffer "eng" = .error msg →
      (uploadPipeline C file).result = .error (.recognitionFailure msg)) ∧
    (∀ (C : Collaborators) (file : UploadedFile) (f : Failure),
      (uploadPipeline C file).result = .error f →
      f = .unsupportedFormat ∨ (∃ m, f = .malformedDocument m) ∨ f = .emptyDocument ∨
      f = .noRecoverableText ∨ (∃ m, f = .recognitionFailure m)) ∧
    (∀ msg : String, Failure.recognitionFailure msg ≠ Failure.noRecoverableText ∧
      (failureResponse (.recognitionFailure msg)).status = 500 ∧
      (failureResponse .noRecoverableText).status = 400) := by
  refine ⟨?_, ?_, ?_⟩
  · intro C file v msg hd hp hv ho
    rw [uploadPipeline_pdf C file hd, pdfStep_ok C file.buffer v hp, if_pos hv,
      ocrFallback_error C file.buffer msg ho]
  · intro C file f _
    cases f with
    | unsupportedFormat => exact Or.inl rfl
    | malformedDocument m => exact Or.inr (Or.inl ⟨m, rfl⟩)
    | emptyDocument => exact Or.inr (Or.inr (Or.inl rfl))
    | noRecoverableText => exact Or.inr (Or.inr (Or.inr (Or.inl rfl)))
    | recognitionFailure m => exact Or.inr (Or.inr (Or.inr (Or.inr ⟨m, rfl⟩)))
  · intro msg
    exact ⟨by simp, rfl, rfl⟩

theorem claim6_witness :
    (uploadPipeline colOcrCrash ⟨"scan2.pdf", [1]⟩).result =
      .error (.recognitionFailure "tesseract failed") ∧
    Failure.recognitionFailure "tesseract failed" ≠ Failure.noRecoverableText :=
  ⟨claim6_recognition_failure_distinguished.1 colOcrCrash ⟨"scan2.pdf", [1]⟩
      "" "tesseract failed" (by decide) rfl (by decide) rfl,
   (claim6_recognition_failure_distinguished.2.2 "tesseract failed").1⟩

/-- C7: atomicity on failure — whenever the store changed, the call had a
file, its pipeline run succeeded, exactly the validated record was appended,
and the response is 200; and whenever the response is not 200, the store is
unchanged. -/
theorem claim7_no_record_persisted_on_failure (C : Collaborators) (S : StoreBehavior)
    (reqFile : Option UploadedFile) (store : List KnowledgeRecord) :
    ((handleUpload C S reqFile store).store ≠ store →
      ∃ (file : UploadedFile) (r : ExtractionResult), reqFile = some file ∧
        (uploadPipeline C file).result = .ok r ∧
        (handleUpload C S reqFile store).store = store ++ [⟨r.text, file.originalname⟩] ∧
        (handleUpload C S reqFile store).response.status = 200) ∧
    ((handleUpload C S reqFile store).response.status ≠ 200 →
      (handleUpload C S reqFile store).store = store) := by
  cases reqFile with
  | none =>
    constructor
    · intro h
      exact absurd rfl h
    · intro _
      rfl
  | some file =>
    cases hres : (uploadPipeline C file).result with
    | error f =>
      rw [handleUpload_some, handleUploadFile_error C S file store f hres]
      constructor
      · intro h
        exact absurd rfl h
      · intro _
        rfl
    | ok r =>
      cases hins : S.insertOutcome with
      | some msg =>
        rw [handleUpload_some, handleUploadFile_insertFail C S file store r msg hres hins]
        constructor
        · intro h
          exact absurd rfl h
        · intro _
          rfl
      | none =>
        rw [handleUpload_some, handleUploadFile_ok C S file store r hres hins]
        constructor
        · intro _
          exact ⟨file, r, rfl, by simp [hres], rfl, rfl⟩
        · intro h
          exact absurd rfl h

theorem claim7_witness :
    (handleUpload colBlank storeOk (some ⟨"x.txt", []⟩) []).store =
      ([] : List KnowledgeRecord) :=
  (claim7_no_record_persisted_on_failure colBlank storeOk (some ⟨"x.txt", []⟩) []).2
    (by decide)

/-- C8: every validated result's text is the trimmed extractor output —
non-empty, equal to its own trim (so never whitespace-only) and of the form
`jsTrim raw`; the handler appends exactly that text (or nothing); and the
pipeline observes extractor output only up to leading/trailing whitespace,
so a whitespace-only document is treated identically to an empty one. -/
theorem claim8_persisted_text_trimmed_nonempty :
    (∀ (C : Collaborators) (file : UploadedFile) (r : ExtractionResult),
      (uploadPipeline C file).result = .ok r →
      r.text ≠ "" ∧ jsTrim r.text = r.text ∧ jsTrim r.text ≠ "" ∧
        ∃ raw, r.text = jsTrim raw) ∧
    (∀ (C : Collaborators) (S : StoreBehavior) (file : UploadedFile)
      (store : List KnowledgeRecord),
      (handleUpload C S (some file) store).store = store ∨
      ∃ r, (uploadPipeline C file).result = .ok r ∧
        (handleUpload C S (some file) store).store =
          store ++ [⟨r.text, file.originalname⟩]) ∧
    (∀ (C1 C2 : Collaborators) (file : UploadedFile),
      (∀ b, trimOk (C1.mammothExtract b) = trimOk (C2.mammothExtract b)) →
      (∀ b, trimOk (C1.pdfParseText b) = trimOk (C2.pdfParseText b)) →
      (∀ b lang, trimOk (C1.tesseractRecognize b lang) =
        trimOk (C2.tesseractRecognize b lang)) →
      uploadPipeline C1 file = uploadPipeline C2 file) := by
  refine ⟨?_, ?_, ?_⟩
  · intro C file r h
    cases hd : detect file.originalname
    case Unsupported =>
      rw [uploadPipeline_unsupported C file hd] at h
      simp at h
    case DOCX =>
      rw [uploadPipeline_docx C file hd] at h
      cases hm : C.mammothExtract file.buffer with
      | error msg =>
        rw [docxStep_error C file.buffer msg hm] at h
        simp at h
      | ok v =>
        rw [docxStep_ok C file.buffer v hm] at h
        by_cases hv : jsTrim v = ""
        · rw [if_pos hv] at h
          simp at h
        · rw [if_neg hv] at h
          have h2 : Except.ok (⟨jsTrim v, .directText⟩ : ExtractionResult) = .ok r := h
          injection h2 with h3
          rw [← h3]
          exact ⟨hv, jsTrim_idem v,
            by show jsTrim (jsTrim v) ≠ ""; rw [jsTrim_idem]; exact hv, v, rfl⟩
    case PDF =>
      rw [uploadPipeline_pdf C file hd] at h
      cases hp : C.pdfParseText file.buffer with
      | error msg =>
        rw [pdfStep_error C file.buffer msg hp] at h
        simp at h
      | ok v =>
        rw [pdfStep_ok C file.buffer v hp] at h
        by_cases hv : jsTrim v = ""
        · rw [if_pos hv] at h
          cases ho : C.tesseractRecognize file.buffer "eng" with
          | error msg =>
            rw [ocrFallback_error C file.buffer msg ho] at h
            simp at h
          | ok w =>
            rw [ocrFallback_ok C file.buffer w ho] at h
            by_cases hw : jsTrim w = ""
            · rw [if_pos hw] at h
              simp at h
            · rw [if_neg hw] at h
              have h2 : Except.ok (⟨jsTrim w, .ocr⟩ : ExtractionResult) = .ok r := h
              injection h2 with h3
              rw [← h3]
              exact ⟨hw, jsTrim_idem w,
                by show jsTrim (jsTrim w) ≠ ""; rw [jsTrim_idem]; exact hw, w, rfl⟩
        · rw [if_neg hv] at h
          have h2 : Except.ok (⟨jsTrim v, .directText⟩ : ExtractionResult) = .ok r := h
          injection h2 with h3
          rw [← h3]
          exact ⟨hv, jsTrim_idem v,
            by show jsTrim (jsTrim v) ≠ ""; rw [jsTrim_idem]; exact hv, v, rfl⟩
  · intro C S file store
    cases hres : (uploadPipeline C file).result with
    | error f =>
      left
      rw [handleUpload_some, handleUploadFile_error C S file store f hres]
    | ok r =>
      cases hins : S.insertOutcome with
      | some msg =>
        left
        rw [handleUpload_some, handleUploadFile_insertFail C S file store r msg hres hins]
      | none =>
        right
        exact ⟨r, by simp [hres],
          by rw [handleUpload_some, handleUploadFile_ok C S file store r hres hins]⟩
  · intro C1 C2 file hm hp ho
    cases hd : detect file.originalname
    case Unsupported =>
      rw [uploadPipeline_unsupported C1 file hd, uploadPipeline_unsupported C2 file hd]
    case DOCX =>
      rw [uploadPipeline_docx C1 file hd, uploadPipeline_docx C2 file hd]
      have h := hm file.buffer
      cases h1 : C1.mammothExtract file.buffer with
      | error m1 =>
        cases h2 : C2.mammothExtract file.buffer with
        | error m2 =>
          rw [h1, h2] at h
          simp [trimOk] at h
          rw [docxStep_error C1 file.buffer m1 h1, docxStep_error C2 file.buffer m2 h2, h]
        | ok v2 =>
          rw [h1, h2] at h
          simp [trimOk] at h
      | ok v1 =>
        cases h2 : C2.mammothExtract file.buffer with
        | error m2 =>
          rw [h1, h2] at h
          simp [trimOk] at h
        | ok v2 =>
          rw [h1, h2] at h
          simp [trimOk] at h
          rw [docxStep_ok C1 file.buffer v1 h1, docxStep_ok C2 file.buffer v2 h2, h]
    case PDF =>
      rw [uploadPipeline_pdf C1 file hd, uploadPipeline_pdf C2 file hd]
      have h := hp file.buffer
      cases h1 : C1.pdfParseText file.buffer with
      | error m1 =>
        cases h2 : C2.pdfParseText file.buffer with
        | error m2 =>
          rw [h1, h2] at h
          simp [trimOk] at h
          rw [pdfStep_error C1 file.buffer m1 h1, pdfStep_error C2 file.buffer m2 h2, h]
        | ok v2 =>
          rw [h1, h2] at h
          simp [trimOk] at h
      | ok v1 =>
        cases h2 : C2.pdfParseText file.buffer with
        | error m2 =>
          rw [h1, h2] at h
          simp [trimOk] at h
        | ok v2 =>
          rw [h1, h2] at h
          simp [trimOk] at h
          rw [pdfStep_ok C1 file.buffer v1 h1, pdfStep_ok C2 file.buffer v2 h2, h]
          by_cases hv : jsTrim v2 = ""
          · rw [if_pos hv, if_pos hv]
            have ht := ho file.buffer "eng"
            cases t1 : C1.tesseractRecognize file.buffer "eng" with
            | error n1 =>
              cases t2 : C2.tesseractRecognize file.buffer "eng" with
              | error n2 =>
                rw [t1, t2] at ht
                simp [trimOk] at ht
                rw [ocrFallback_error C1 file.buffer n1 t1,
                  ocrFallback_error C2 file.buffer n2 t2, ht]
              | ok w2 =>
                rw [t1, t2] at ht
                simp [trimOk] at ht
            | ok w1 =>
              cases t2 : C2.tesseractRecognize file.buffer "eng" with
              | error n2 =>
                rw [t1, t2] at ht
                simp [trimOk] at ht
              | ok w2 =>
                rw [t1, t2] at ht
                simp [trimOk] at ht
                rw [ocrFallback_ok C1 file.buffer w1 t1,
                  ocrFallback_ok C2 file.buffer w2 t2, ht]
          · rw [if_neg hv, if_neg hv]

theorem claim8_witness :
    ((jsTrim "  Phase diagrams show...  " ≠ "" ∧
      jsTrim (jsTrim "  Phase diagrams show...  ") = jsTrim "  Phase diagrams show...  " ∧
      jsTrim (jsTrim "  Phase diagrams show...  ") ≠ "" ∧
      ∃ raw, jsTrim "  Phase diagrams show...  " = jsTrim raw)) ∧
    uploadPipeline colWs ⟨"img.docx", [1]⟩ = uploadPipeline colBlank ⟨"img.docx", [1]⟩ :=
  ⟨claim8_persisted_text_trimmed_nonempty.1 colDirect ⟨"doc.pdf", [1]⟩
      ⟨jsTrim "  Phase diagrams show...  ", .directText⟩ (by decide),
   claim8_persisted_text_trimmed_nonempty.2.2 colWs colBlank ⟨"img.docx", [1]⟩
      (by intro b; rfl) (by intro b; rfl) (by intro b lang; rfl)⟩

/-- C9: the /add endpoint answers 400 exactly when content or source is
absent or the empty string; a whitespace-only content passes the check and,
when the insert succeeds, is persisted verbatim. -/
theorem claim9_add_falsy_check (S : StoreBehavior) (content source : Option String)
    (store : List KnowledgeRecord) :
    ((handleAdd S content source store).response.status = 400 ↔
      (content = none ∨ content = some "" ∨ source = none ∨ source = some "")) ∧
    (∀ c s, content = some c → source = some s → c ≠ "" → s ≠ "" →
      S.insertOutcome = none →
      handleAdd S content source store = ⟨⟨200, "success"⟩, store ++ [⟨c, s⟩]⟩) := by
  constructor
  · cases content with
    | none => simp [handleAdd]
    | some c =>
      cases source with
      | none => simp [handleAdd]
      | some s =>
        by_cases hc : c = ""
        · simp [handleAdd, hc]
        · by_cases hs : s = ""
          · simp [handleAdd, hc, hs]
          · cases hins : S.insertOutcome with
            | some msg => simp [handleAdd, hc, hs, hins]
            | none => simp [handleAdd, hc, hs, hins]
  · intro c s h1 h2 hc hs hins
    subst h1
    subst h2
    simp [handleAdd, hc, hs, hins]

theorem claim9_witness :
    handleAdd storeOk (some " ") (some "manual") [] =
      ⟨⟨200, "success"⟩, [⟨" ", "manual"⟩]⟩ :=
  (claim9_add_falsy_check storeOk (some " ") (some "manual") []).2 " " "manual"
    rfl rfl (by decide) (by decide) rfl

/-- C10: the upload middleware enforces the configured 20MB limit: a file
whose buffer exceeds 20*1024*1024 bytes is rejected before the handler runs,
with no extractor invoked, no store change, and the middleware's error
response. -/
theorem claim10_multer_size_limit (C : Collaborators) (S : StoreBehavior)
    (file : UploadedFile) (store : List KnowledgeRecord)
    (h : uploadFileSizeLimit < file.buffer.length) :
    uploadRoute C S (some file) store = ⟨⟨500, "File too large"⟩, store, 0, 0, 0⟩ := by
  have hs : uploadRoute C S (some file) store = uploadRouteFile C S file store := rfl
  rw [hs]
  unfold uploadRouteFile
  rw [if_pos h]

theorem claim10_witness :
    uploadRoute colDirect storeOk
      (some ⟨"big.pdf", List.replicate (uploadFileSizeLimit + 1) 0⟩) [] =
      ⟨⟨500, "File too large"⟩, [], 0, 0, 0⟩ :=
  claim10_multer_size_limit colDirect storeOk
    ⟨"big.pdf", List.replicate (uploadFileSizeLimit + 1) 0⟩ []
    (by simp)

end AIChat
